import Mathlib

/-!
Verification of the Gutenberg slice: the block moving-animation hook
(`packages/block-editor/src/components/use-moving-animation/index.js`),
the heading-level dropdown component, and the block-directory store
selectors exercised by its test suite.

The JavaScript is shallowly embedded: DOM measurements become explicit
arguments, inline style overrides become `Option` fields on an element
record, React state becomes explicit record values, and the per-frame
interpolated spring values become rational-number arguments.
-/

namespace Gutenberg

/-- An absolute position, as returned by `getAbsolutePosition`:
`offsetTop` / `offsetLeft` of an element (integers in the DOM). -/
structure Position where
  top : ℤ
  left : ℤ
deriving DecidableEq, Repr

/-- A DOM element as the hook observes it: its natural offset position
(the position it takes with no inline `left`/`top` override) together
with the inline positional overrides currently applied.  A relative
offset shifts the measured absolute position by its value. -/
structure Element where
  naturalTop : ℤ
  naturalLeft : ℤ
  styleTop : Option ℤ
  styleLeft : Option ℤ
deriving DecidableEq, Repr

/-- `getAbsolutePosition( element )`: reads `offsetTop` / `offsetLeft`,
which include any inline relative offset currently applied. -/
def getAbsolutePosition (e : Element) : Position :=
  { top := e.naturalTop + e.styleTop.getD 0
    left := e.naturalLeft + e.styleLeft.getD 0 }

/-- Clearing the inline positional override
(`ref.current.style.left = ''; ref.current.style.top = ''`). -/
def clearPositionOverride (e : Element) : Element :=
  { e with styleTop := none, styleLeft := none }

/-- The transform state recorded by the measure-and-freeze phase:
the pixel delta on each axis plus the bounding-rect top captured at
delta-computation time. -/
structure Transform where
  x : ℤ
  y : ℤ
  clientTop : ℚ
deriving DecidableEq, Repr

/-- Result of the measure-and-freeze layout effect: the element with the
reapplied inline override, and the recorded transform. -/
structure FreezeResult where
  element : Element
  transform : Transform
deriving DecidableEq, Repr

/-- The measure-and-freeze phase of `useMovingAnimation` (the
non-reduced-motion branch of the layout effect): clear the inline
positional override, read the destination position, compute
`x = previous.left - destination.left` and `y = previous.top -
destination.top`, reapply an inline override equal to the delta
(omitting an axis whose delta is `0`), and record the transform
together with the element's live bounding-rect top. -/
def useMovingAnimationFreeze (previous : Position) (element : Element)
    (blockRectTop : ℚ) : FreezeResult :=
  let cleared := clearPositionOverride element
  let destination := getAbsolutePosition cleared
  let x := previous.left - destination.left
  let y := previous.top - destination.top
  let frozen : Element :=
    { cleared with
      styleLeft := if x = 0 then none else some x
      styleTop := if y = 0 then none else some y }
  { element := frozen, transform := { x := x, y := y, clientTop := blockRectTop } }

/-- The reduced-motion branch of the layout effect: when scroll
adjustment is requested and a scroll container exists, clear the
override, read the destination, and jump the scroll position to
`scrollTop - previous.top + destination.top`; otherwise the scroll
position is untouched. -/
def reducedMotionScrollJump (adjustScrolling hasScrollContainer : Bool)
    (previous : Position) (element : Element) (scrollTop : ℤ) : ℤ :=
  if adjustScrolling && hasScrollContainer then
    let destination := getAbsolutePosition (clearPositionOverride element)
    scrollTop - previous.top + destination.top
  else
    scrollTop

/-- `prefersReducedMotion`: the reduce-motion preference is in effect
when the system/user preference is active or the caller disabled
animation. -/
def prefersReducedMotion (useReducedMotion enableAnimation : Bool) : Bool :=
  useReducedMotion || !enableAnimation

/-- `counterReducer`: simple reducer used to increment a counter. -/
def counterReducer (state : ℕ) : ℕ := state + 1

/-- The two animation generation counters held by the hook:
`triggeredAnimation` (incremented when a new animation is triggered)
and `finishedAnimation` (incremented when the previous animation's
reset has been acknowledged). -/
structure AnimCounters where
  triggered : ℕ
  finished : ℕ
deriving DecidableEq, Repr

/-- Both counters are initialised with `useReducer( counterReducer, 0 )`. -/
def initCounters : AnimCounters := { triggered := 0, finished := 0 }

/-- One step of the counters' lifecycle: either the freeze phase calls
`triggerAnimation()` or the acknowledgement layout effect calls
`endAnimation()`; each applies `counterReducer` to its own counter. -/
inductive CounterStep : AnimCounters → AnimCounters → Prop
  | trigger (c : AnimCounters) :
      CounterStep c { c with triggered := counterReducer c.triggered }
  | ack (c : AnimCounters) :
      CounterStep c { c with finished := counterReducer c.finished }

/-- The props handed to `useSpring`: the starting offsets (the recorded
transform), the destination `(0, 0)`, the reset flag
(`triggeredAnimation !== finishedAnimation`) and the immediate flag
(`prefersReducedMotion`). -/
structure SpringProps where
  fromX : ℤ
  fromY : ℤ
  toX : ℤ
  toY : ℤ
  reset : Bool
  immediate : Bool
deriving DecidableEq, Repr

/-- The `useSpring` call of the hook. -/
def useSpringProps (t : Transform) (c : AnimCounters)
    (reducedMotion : Bool) : SpringProps :=
  { fromX := t.x
    fromY := t.y
    toX := 0
    toY := 0
    reset := c.triggered != c.finished
    immediate := reducedMotion }

/-- The `onFrame` callback: on an intermediate frame, when scroll
adjustment is requested, a scroll container exists and reduced motion
is not active, add `blockRect.top - transform.clientTop` to the scroll
container's `scrollTop`. -/
def onFrame (adjustScrolling hasScrollContainer reducedMotion : Bool)
    (blockRectTop : ℚ) (t : Transform) (scrollTop : ℚ) : ℚ :=
  if adjustScrolling && hasScrollContainer && !reducedMotion then
    scrollTop + (blockRectTop - t.clientTop)
  else
    scrollTop

/-- JavaScript's `Math.round`: round to the nearest integer, ties toward
positive infinity (`Math.round( x ) = ⌊x + 1/2⌋`). -/
def jsRound (q : ℚ) : ℤ := ⌊q + 1 / 2⌋

/-- A pixel string such as `"80px"`. -/
def pxString (n : ℤ) : String := toString n ++ "px"

/-- The interpolation applied to each positional style value: round the
interpolated offset to the nearest integer pixel and return no override
when the rounded value is `0`. -/
def interpolatePx (v : ℚ) : Option String :=
  let r := jsRound v
  if r = 0 then none else some (pxString r)

/-- The z-index interpolation: no override when the element is not
selected or both interpolated values are exactly zero; the fixed
elevated value `'1'` otherwise. -/
def interpolateZIndex (isSelected : Bool) (x y : ℚ) : Option String :=
  if !isSelected || (x = 0 && y = 0 : Bool) then none else some "1"

/-- The style patch returned by the hook; a key holding `none` is absent
from the returned object. -/
structure AnimationStyle where
  left : Option String
  top : Option String
  zIndex : Option String
deriving DecidableEq, Repr

/-- The empty style patch `{}`. -/
def emptyStyle : AnimationStyle :=
  { left := none, top := none, zIndex := none }

/-- The value returned by `useMovingAnimation`, evaluated at one
animation frame whose interpolated spring offsets are `x` and `y`:
the empty object under reduced motion, and otherwise the interpolated
`left`, `top` and `zIndex` overrides. -/
def useMovingAnimationStyle (reducedMotion isSelected : Bool)
    (x y : ℚ) : AnimationStyle :=
  if reducedMotion then emptyStyle
  else
    { left := interpolatePx x
      top := interpolatePx y
      zIndex := interpolateZIndex isSelected x y }

/-- The keycode constant `DOWN` from the keycodes package (arrow-down). -/
def DOWN : ℕ := 40

/-- What the `openOnArrowDown` key-down handler did with an event:
whether `onToggle` fired, and whether the event's default behavior and
propagation were suppressed. -/
structure KeyDownOutcome where
  toggled : Bool
  defaultPrevented : Bool
  propagationStopped : Bool
deriving DecidableEq, Repr

/-- `openOnArrowDown`: when the popover is closed and the event's
keycode is `DOWN`, prevent default, stop propagation and toggle;
otherwise do nothing. -/
def openOnArrowDown (isOpen : Bool) (keyCode : ℕ) : KeyDownOutcome :=
  if !isOpen && keyCode == DOWN then
    { toggled := true, defaultPrevented := true, propagationStopped := true }
  else
    { toggled := false, defaultPrevented := false, propagationStopped := false }

/-- The heading levels offered by the dropdown. -/
def HEADING_LEVELS : List ℕ := [1, 2, 3, 4, 5, 6]

/-- The observable shape of the dropdown's toggle button: the level its
icon shows, whether the invalidity indicator span is rendered next to
the icon, and the `aria-expanded` attribute. -/
structure DropdownToggleRender where
  iconLevel : ℕ
  invalidIndicator : Bool
  ariaExpanded : Bool
deriving DecidableEq, Repr

/-- `HeadingLevelDropdown`, restricted to the toggle it renders.  The
collaborator hook `use-is-heading-level-valid` is not part of this
slice, so it is passed in as a function of the block's client id and
the selected level; per the use-site binding `levelIsInvalid` (and the
spec's contract), a `true` result means the hook reports the selected
level is not valid for this block's context, and exactly then the
invalidity indicator span is rendered inside the icon. -/
def HeadingLevelDropdown (useIsHeadingLevelValid : String → ℕ → Bool)
    (clientId : String) (selectedLevel : ℕ) (isOpen : Bool) :
    DropdownToggleRender :=
  let levelIsInvalid := useIsHeadingLevelValid clientId selectedLevel
  { iconLevel := selectedLevel
    invalidIndicator := levelIsInvalid
    ariaExpanded := isOpen }

/-- The block-directory store state, in the documented shape
`{ errorNotices, downloadableBlocks: { results } }`; maps are embedded
as association lists and a downloadable block as its name. -/
structure BlockDirectoryState where
  errorNotices : List (String × String)
  results : List (String × List String)
deriving DecidableEq, Repr

/-- A value returned by `getErrorNoticeForBlock`: either the stored
notice string, or the boolean `false` sentinel. -/
inductive NoticeResult where
  | notice (msg : String)
  | boolFalse
deriving DecidableEq, Repr

/-- Modelled from the spec: the selector `getErrorNoticeForBlock` of
`packages/block-directory/src/store/selectors.js` is absent from this
slice (only its test suite is present); per the spec it "returns the
stored string for a known key and the boolean `false` for an unknown
key". -/
def getErrorNoticeForBlock (state : BlockDirectoryState)
    (blockId : String) : NoticeResult :=
  match state.errorNotices.lookup blockId with
  | some msg => NoticeResult.notice msg
  | none => NoticeResult.boolFalse

/-- Modelled from the spec: the selector `getDownloadableBlocks` of
`packages/block-directory/src/store/selectors.js` is absent from this
slice (only its test suite is present); per the spec it returns
"query-keyed result arrays (empty array, never absent, when the query
key is unmatched)". -/
def getDownloadableBlocks (state : BlockDirectoryState)
    (query : String) : List String :=
  (state.results.lookup query).getD []

/-- The fixture state of the `getErrorNoticeForBlock` tests. -/
def errorNoticeState : BlockDirectoryState :=
  { errorNotices := [("block/has-error", "Error notice")], results := [] }

/-- The fixture state of the `getDownloadableBlocks` tests: the `boxer`
query maps to the single-element array holding the downloadable-block
fixture. -/
def downloadableState : BlockDirectoryState :=
  { errorNotices := []
    results := [("boxer", ["boxer-block"])] }

/-! ## Theorems -/

/-- C1: on a trigger with a recorded prior position under full motion,
the freeze phase clears the inline override, reads the destination,
computes the delta as previous minus destination on each axis, and
reapplies an inline override equal to the delta, omitting an axis whose
delta is `0` — so the element measures back at its previous position;
for previous `{top: 100, left: 50}` and destination `{top: 20, left: 50}`
the y-delta is `80`, the x-delta is `0`, the `left` override is omitted
and the spring interpolates the `top` offset from `80` toward `0`. -/
theorem freeze_computes_delta_and_restores_previous
    (previous : Position) (e : Element) (ct : ℚ) (c : AnimCounters)
    (rm : Bool) :
    (useMovingAnimationFreeze previous e ct).transform.x =
      previous.left - (getAbsolutePosition (clearPositionOverride e)).left ∧
    (useMovingAnimationFreeze previous e ct).transform.y =
      previous.top - (getAbsolutePosition (clearPositionOverride e)).top ∧
    ((useMovingAnimationFreeze previous e ct).element.styleLeft = none ↔
      (useMovingAnimationFreeze previous e ct).transform.x = 0) ∧
    ((useMovingAnimationFreeze previous e ct).element.styleTop = none ↔
      (useMovingAnimationFreeze previous e ct).transform.y = 0) ∧
    ((useMovingAnimationFreeze previous e ct).element.styleLeft = none ∨
      (useMovingAnimationFreeze previous e ct).element.styleLeft =
        some (useMovingAnimationFreeze previous e ct).transform.x) ∧
    ((useMovingAnimationFreeze previous e ct).element.styleTop = none ∨
      (useMovingAnimationFreeze previous e ct).element.styleTop =
        some (useMovingAnimationFreeze previous e ct).transform.y) ∧
    getAbsolutePosition (useMovingAnimationFreeze previous e ct).element =
      previous ∧
    (useMovingAnimationFreeze ⟨100, 50⟩ ⟨20, 50, none, none⟩ ct).transform.y
      = 80 ∧
    (useMovingAnimationFreeze ⟨100, 50⟩ ⟨20, 50, none, none⟩ ct).transform.x
      = 0 ∧
    (useMovingAnimationFreeze ⟨100, 50⟩ ⟨20, 50, none, none⟩
      ct).element.styleLeft = none ∧
    (useSpringProps
      (useMovingAnimationFreeze ⟨100, 50⟩ ⟨20, 50, none, none⟩ ct).transform
      c rm).fromY = 80 ∧
    (useSpringProps
      (useMovingAnimationFreeze ⟨100, 50⟩ ⟨20, 50, none, none⟩ ct).transform
      c rm).toY = 0 := by
  refine ⟨rfl, rfl, ?_, ?_, ?_, ?_, ?_, by rfl, by rfl, ?_, by rfl, rfl⟩
  · simp only [useMovingAnimationFreeze]
    split <;> simp_all
  · simp only [useMovingAnimationFreeze]
    split <;> simp_all
  · simp only [useMovingAnimationFreeze]
    split <;> simp_all
  · simp only [useMovingAnimationFreeze]
    split <;> simp_all
  · obtain ⟨pt, pl⟩ := previous
    simp only [useMovingAnimationFreeze, getAbsolutePosition,
      clearPositionOverride, Position.mk.injEq]
    constructor <;> (dsimp; split <;> (simp_all; try omega))
  · norm_num [useMovingAnimationFreeze, getAbsolutePosition,
      clearPositionOverride]

/-- C2: when the reduce-motion preference is active or animation is
disabled, the hook returns the empty style object (no `left`, `top` or
`zIndex` key, regardless of the interpolated offsets), the spring is
made immediate, and the requested scroll-following adjustment is a
synchronous jump to `scrollTop - previous.top + destination.top`. -/
theorem reducedMotion_empty_style_and_scroll_jump
    (useRM enableAnim : Bool)
    (h : prefersReducedMotion useRM enableAnim = true)
    (isSelected : Bool) (x y : ℚ) (previous : Position) (e : Element)
    (scrollTop : ℤ) (t : Transform) (c : AnimCounters) :
    useMovingAnimationStyle (prefersReducedMotion useRM enableAnim)
      isSelected x y = emptyStyle ∧
    (useMovingAnimationStyle (prefersReducedMotion useRM enableAnim)
      isSelected x y).left = none ∧
    (useMovingAnimationStyle (prefersReducedMotion useRM enableAnim)
      isSelected x y).top = none ∧
    (useMovingAnimationStyle (prefersReducedMotion useRM enableAnim)
      isSelected x y).zIndex = none ∧
    (useSpringProps t c (prefersReducedMotion useRM enableAnim)).immediate
      = true ∧
    reducedMotionScrollJump true true previous e scrollTop =
      scrollTop - previous.top +
        (getAbsolutePosition (clearPositionOverride e)).top := by
  rw [h]
  exact ⟨rfl, rfl, rfl, rfl, rfl, rfl⟩

/-- Witness for C2 at a concrete input. -/
theorem reducedMotion_empty_style_witness :
    prefersReducedMotion true true = true ∧
    useMovingAnimationStyle (prefersReducedMotion true true) true 5 7 =
      emptyStyle :=
  ⟨by decide,
    (reducedMotion_empty_style_and_scroll_jump true true (by decide) true 5 7
      ⟨0, 0⟩ ⟨0, 0, none, none⟩ 0 ⟨0, 0, 0⟩ ⟨0, 0⟩).1⟩

/-- The rounded value is the nearest integer: `⌊q + 1/2⌋` differs from
`q` by at most half. -/
theorem jsRound_nearest (q : ℚ) : |q - (jsRound q : ℚ)| ≤ 1 / 2 := by
  simp only [jsRound]
  rw [abs_le]
  constructor <;>
    [linarith [Int.floor_le (q + 1 / 2)];
      linarith [Int.lt_floor_add_one (q + 1 / 2)]]

/-- C3: each exposed positional style value is the interpolated offset
rounded to the nearest integer pixel (it differs from the interpolated
value by at most half a pixel), and once the interpolated value is
exactly zero on both axes neither positional override is exposed. -/
theorem style_rounds_to_nearest_and_settles
    (isSelected : Bool) (x y : ℚ) :
    (∀ s, (useMovingAnimationStyle false isSelected x y).left = some s →
      s = pxString (jsRound x) ∧ |x - (jsRound x : ℚ)| ≤ 1 / 2) ∧
    (∀ s, (useMovingAnimationStyle false isSelected x y).top = some s →
      s = pxString (jsRound y) ∧ |y - (jsRound y : ℚ)| ≤ 1 / 2) ∧
    (x = 0 → y = 0 →
      (useMovingAnimationStyle false isSelected x y).left = none ∧
      (useMovingAnimationStyle false isSelected x y).top = none) := by
  refine ⟨?_, ?_, ?_⟩
  · intro s hs
    simp only [useMovingAnimationStyle, if_neg Bool.false_ne_true,
      interpolatePx] at hs
    split at hs
    · exact absurd hs (by simp)
    · exact ⟨(Option.some.injEq _ _ ▸ hs).symm, jsRound_nearest x⟩
  · intro s hs
    simp only [useMovingAnimationStyle, if_neg Bool.false_ne_true,
      interpolatePx] at hs
    split at hs
    · exact absurd hs (by simp)
    · exact ⟨(Option.some.injEq _ _ ▸ hs).symm, jsRound_nearest y⟩
  · rintro rfl rfl
    constructor <;> norm_num [useMovingAnimationStyle, interpolatePx, jsRound]

/-- Witness for C3 at concrete inputs. -/
theorem style_rounds_witness :
    ((useMovingAnimationStyle false true 0 0).left = none ∧
      (useMovingAnimationStyle false true 0 0).top = none) ∧
    ((80 : ℚ) - (jsRound 80 : ℚ)) = 0 :=
  ⟨(style_rounds_to_nearest_and_settles true 0 0).2.2 rfl rfl, by
    norm_num [jsRound]⟩

/-- C4: the invalidity indicator is rendered exactly when the
collaborator hook reports the selected level is not valid for this
block's context, and is absent when the hook reports it valid; the
toggle's icon reflects the selected level. -/
theorem headingLevelDropdown_indicator_iff
    (useIsHeadingLevelValid : String → ℕ → Bool) (clientId : String)
    (selectedLevel : ℕ) (isOpen : Bool) :
    ((HeadingLevelDropdown useIsHeadingLevelValid clientId selectedLevel
        isOpen).invalidIndicator = true ↔
      useIsHeadingLevelValid clientId selectedLevel = true) ∧
    ((HeadingLevelDropdown useIsHeadingLevelValid clientId selectedLevel
        isOpen).invalidIndicator = false ↔
      useIsHeadingLevelValid clientId selectedLevel = false) ∧
    (HeadingLevelDropdown useIsHeadingLevelValid clientId selectedLevel
      isOpen).iconLevel = selectedLevel :=
  ⟨Iff.rfl, Iff.rfl, rfl⟩

/-- C5: the z-index override `'1'` is present exactly when the element
is selected and the interpolated offsets are not both zero; it is never
present when the element is not selected, and reverts to no override
once both offsets are zero. -/
theorem zIndex_elevated_iff (isSelected : Bool) (x y : ℚ) :
    ((useMovingAnimationStyle false isSelected x y).zIndex = some "1" ↔
      isSelected = true ∧ ¬(x = 0 ∧ y = 0)) ∧
    ((useMovingAnimationStyle false isSelected x y).zIndex = none ↔
      isSelected = false ∨ (x = 0 ∧ y = 0)) := by
  cases isSelected <;> by_cases hx : x = 0 <;> by_cases hy : y = 0 <;>
    simp [useMovingAnimationStyle, interpolateZIndex, hx, hy]

/-- C6: both generation counters start at `0`; every step of the
counters' lifecycle leaves both counters non-decreasing and applies
`counterReducer` (an increment by one) to exactly one of them; and the
spring's reset flag holds exactly when the two counters are unequal. -/
theorem counters_monotone_and_reset_iff :
    initCounters.triggered = 0 ∧ initCounters.finished = 0 ∧
    (∀ c c' : AnimCounters, CounterStep c c' →
      (c.triggered ≤ c'.triggered ∧ c.finished ≤ c'.finished) ∧
      ((c'.triggered = counterReducer c.triggered ∧
          c'.finished = c.finished) ∨
        (c'.triggered = c.triggered ∧
          c'.finished = counterReducer c.finished))) ∧
    (∀ (t : Transform) (c : AnimCounters) (rm : Bool),
      ((useSpringProps t c rm).reset = true ↔
        c.triggered ≠ c.finished)) := by
  refine ⟨rfl, rfl, ?_, ?_⟩
  · intro c c' h
    cases h with
    | trigger => exact ⟨⟨Nat.le_succ _, le_refl _⟩, Or.inl ⟨rfl, rfl⟩⟩
    | ack => exact ⟨⟨le_refl _, Nat.le_succ _⟩, Or.inr ⟨rfl, rfl⟩⟩
  · intro t c rm
    simp [useSpringProps, bne_iff_ne]

/-- Witness for C6 at a concrete step. -/
theorem counters_witness :
    (AnimCounters.mk 0 0).triggered ≤ (AnimCounters.mk 1 0).triggered ∧
    ((useSpringProps ⟨0, 0, 0⟩ ⟨1, 0⟩ false).reset = true ↔
      (AnimCounters.mk 1 0).triggered ≠ (AnimCounters.mk 1 0).finished) :=
  ⟨((counters_monotone_and_reset_iff.2.2.1 ⟨0, 0⟩ ⟨1, 0⟩
      (CounterStep.trigger ⟨0, 0⟩)).1).1,
    counters_monotone_and_reset_iff.2.2.2 ⟨0, 0, 0⟩ ⟨1, 0⟩ false⟩

/-- C7: on an intermediate frame with scroll-following requested, a
scroll container present and reduced motion inactive, the scroll
position is increased by exactly the difference between the element's
live bounding-rect top and the recorded reference top. -/
theorem onFrame_adds_rect_diff
    (adjustScrolling hasScrollContainer rm : Bool)
    (hA : adjustScrolling = true) (hS : hasScrollContainer = true)
    (hR : rm = false) (blockRectTop : ℚ) (t : Transform)
    (scrollTop : ℚ) :
    onFrame adjustScrolling hasScrollContainer rm blockRectTop t
      scrollTop = scrollTop + (blockRectTop - t.clientTop) := by
  subst hA; subst hS; subst hR; rfl

/-- Witness for C7 at a concrete input. -/
theorem onFrame_witness :
    onFrame true true false 10 ⟨0, 0, 3⟩ 100 = 100 + (10 - 3) :=
  onFrame_adds_rect_diff true true false rfl rfl rfl 10 ⟨0, 0, 3⟩ 100

/-- C8: the key-down handler fires the toggle if and only if the
popover is closed and the key is arrow-down, in which case the event's
default behavior is prevented; when the popover is already open the
handler never re-toggles it. -/
theorem openOnArrowDown_toggles_iff (isOpen : Bool) (keyCode : ℕ) :
    ((openOnArrowDown isOpen keyCode).toggled = true ↔
      isOpen = false ∧ keyCode = DOWN) ∧
    ((openOnArrowDown isOpen keyCode).toggled = true →
      (openOnArrowDown isOpen keyCode).defaultPrevented = true) ∧
    (openOnArrowDown true keyCode).toggled = false := by
  cases isOpen <;> by_cases hk : keyCode = DOWN <;>
    simp [openOnArrowDown, hk]

/-- Witness for C8 at a concrete input. -/
theorem openOnArrowDown_witness :
    (openOnArrowDown false 40).defaultPrevented = true :=
  (openOnArrowDown_toggles_iff false 40).2.1 (by decide)

/-- C9: the selectors degrade gracefully on missing keys —
`getErrorNoticeForBlock` returns the stored string for a known block
key and the boolean `false` sentinel for an unknown key, and
`getDownloadableBlocks` returns the stored array for a matched query
(`boxer` yields the single-element fixture array) and `[]` for an
unmatched query. -/
theorem selectors_sentinel_defaults :
    (∀ (s : BlockDirectoryState) (k : String),
      s.errorNotices.lookup k = none →
      getErrorNoticeForBlock s k = NoticeResult.boolFalse) ∧
    (∀ (s : BlockDirectoryState) (k msg : String),
      s.errorNotices.lookup k = some msg →
      getErrorNoticeForBlock s k = NoticeResult.notice msg) ∧
    (∀ (s : BlockDirectoryState) (q : String),
      s.results.lookup q = none → getDownloadableBlocks s q = []) ∧
    getErrorNoticeForBlock errorNoticeState "block/has-error" =
      NoticeResult.notice "Error notice" ∧
    getErrorNoticeForBlock errorNoticeState "block/no-error" =
      NoticeResult.boolFalse ∧
    getDownloadableBlocks downloadableState "boxer" = ["boxer-block"] ∧
    (getDownloadableBlocks downloadableState "boxer").length = 1 ∧
    getDownloadableBlocks downloadableState "not-found" = [] := by
  refine ⟨?_, ?_, ?_, rfl, rfl, rfl, rfl, rfl⟩
  · intro s k h
    simp [getErrorNoticeForBlock, h]
  · intro s k msg h
    simp [getErrorNoticeForBlock, h]
  · intro s q h
    simp [getDownloadableBlocks, h]

/-- Witness for C9 at a concrete state and key. -/
theorem selectors_witness :
    getErrorNoticeForBlock errorNoticeState "other" =
      NoticeResult.boolFalse ∧
    getDownloadableBlocks downloadableState "other" = [] :=
  ⟨selectors_sentinel_defaults.1 errorNoticeState "other" rfl,
    selectors_sentinel_defaults.2.2.1 downloadableState "other" rfl⟩

/-- C10: when the element is selected and both interpolated offsets are
nonzero with absolute value below one half, the positional overrides
are both omitted (their rounded values are `0`) while the z-index
override `'1'` is still present, because the z-index is decided on the
exact interpolated values. -/
theorem subpixel_offsets_keep_zIndex (x y : ℚ)
    (hx : x ≠ 0) (hy : y ≠ 0) (hxlt : |x| < 1 / 2) (hylt : |y| < 1 / 2) :
    (useMovingAnimationStyle false true x y).left = none ∧
    (useMovingAnimationStyle false true x y).top = none ∧
    (useMovingAnimationStyle false true x y).zIndex = some "1" := by
  have hx0 : jsRound x = 0 := by
    simp only [jsRound]
    rw [Int.floor_eq_zero_iff, Set.mem_Ico]
    rw [abs_lt] at hxlt
    constructor <;> linarith [hxlt.1, hxlt.2]
  have hy0 : jsRound y = 0 := by
    simp only [jsRound]
    rw [Int.floor_eq_zero_iff, Set.mem_Ico]
    rw [abs_lt] at hylt
    constructor <;> linarith [hylt.1, hylt.2]
  refine ⟨?_, ?_, ?_⟩
  · simp [useMovingAnimationStyle, interpolatePx, hx0]
  · simp [useMovingAnimationStyle, interpolatePx, hy0]
  · simp [useMovingAnimationStyle, interpolateZIndex, hx, hy]

/-- Witness for C10 at concrete subpixel offsets. -/
theorem subpixel_witness :
    (useMovingAnimationStyle false true (1 / 4) (-1 / 4)).left = none ∧
    (useMovingAnimationStyle false true (1 / 4) (-1 / 4)).top = none ∧
    (useMovingAnimationStyle false true (1 / 4) (-1 / 4)).zIndex =
      some "1" :=
  subpixel_offsets_keep_zIndex (1 / 4) (-1 / 4) (by norm_num)
    (by norm_num) (by rw [abs_lt]; constructor <;> norm_num)
    (by rw [abs_lt]; constructor <;> norm_num)

end Gutenberg
